import Mathlib

/-!
Shallow embedding of `src/components/ChatUIUXShowcase.tsx`, the single source
file of the ChatBot-UI-UX-only repository.  The component holds local UI state
(theme, message list, typing flag, active thread id, settings-panel
visibility) and mutates it through a handful of event handlers: the composer
send flow (`MessageInput.send` feeding `handleSend` and its timed status
chain), the theme toggle, thread selection, the clear button and the
demo-attachments button.  The fresh values the code pulls from the
environment (`crypto.randomUUID()`, `new Date().toLocaleTimeString(...)`) are
modelled as explicit oracle inputs.
-/

namespace ChatShowcase

/-- Embedding of the TypeScript union `type Sender = "user" | "bot"`. -/
inductive Sender where
  | user
  | bot
  deriving DecidableEq, Repr

/-- Embedding of `type MsgStatus = "sending" | "sent" | "delivered" | "read"`. -/
inductive MsgStatus where
  | sending
  | sent
  | delivered
  | read
  deriving DecidableEq, Repr

/-- Attachment kind, from the `type: "image" | "file"` field of attachments. -/
inductive AttachType where
  | image
  | file
  deriving DecidableEq, Repr

/-- One attachment entry `{ type: "image" | "file"; name: string }`. -/
structure Attachment where
  type : AttachType
  name : String
  deriving DecidableEq, Repr

/-- Embedding of `interface Message`.  `status` and `attachments` are
optional fields in the source, hence `Option` here. -/
structure Message where
  id : String
  sender : Sender
  text : String
  time : String
  status : Option MsgStatus
  attachments : Option (List Attachment)
  deriving DecidableEq, Repr

/-- Embedding of `interface Thread`. -/
structure Thread where
  id : String
  title : String
  lastMessage : String
  unread : Option Nat
  pinned : Option Bool
  deriving DecidableEq, Repr

/-- Embedding of the state variable `theme` (literal type `"light" | "dark"`). -/
inductive Theme where
  | light
  | dark
  deriving DecidableEq, Repr

/-- The static `demoThreads` constant. -/
def demoThreads : List Thread :=
  [ { id := "t1", title := "Portfolio Review ✨", lastMessage := "Let’s make it pop.",
      unread := some 2, pinned := some true },
    { id := "t2", title := "UX Interview Prep", lastMessage := "Walk me through a flow.",
      unread := none, pinned := none },
    { id := "t3", title := "Client – AI Keyboard", lastMessage := "Ship date confirmed.",
      unread := none, pinned := none },
    { id := "t4", title := "Hackathon Team", lastMessage := "Standup in 10 mins",
      unread := some 1, pinned := none } ]

/-- The static `introMessages` constant, the initial value of `messages`. -/
def introMessages : List Message :=
  [ { id := "m1", sender := .bot,
      text := "Hey! I’m the demo assistant. Ask me anything about this UI.",
      time := "09:58", status := none, attachments := none },
    { id := "m2", sender := .user, text := "Show me your best micro‑interactions.",
      time := "10:01", status := some .read, attachments := none },
    { id := "m3", sender := .bot,
      text := "You’ll see motion, affordances, and accessible controls throughout.",
      time := "10:02", status := none, attachments := none } ]

/-- Model of JavaScript `String.prototype.trim`: strip whitespace from both
ends (executable over the character list so the kernel can evaluate it). -/
def jsTrim (s : String) : String :=
  String.mk (((s.data.dropWhile Char.isWhitespace).reverse.dropWhile
      Char.isWhitespace).reverse)

/-- Model of JavaScript `String.prototype.toLowerCase`. -/
def jsToLower (s : String) : String :=
  String.mk (s.data.map Char.toLower)

/-- Model of `text.startsWith("/")`. -/
def startsWithSlash (s : String) : Bool :=
  match s.data with
  | c :: _ => c == '/'
  | [] => false

/-- Model of `text.slice(1)`. -/
def jsSlice1 (s : String) : String :=
  String.mk s.data.tail

/-- Model of `v.split("\n").length`: one more than the number of newline
characters, which is what JavaScript `split` yields for every string. -/
def lineCount (s : String) : Nat :=
  (s.data.filter (· == '\x0a')).length + 1

/-- Rendering of a `Theme` value into the template string of the `/theme`
reply (`${theme}` interpolation). -/
def themeName : Theme → String
  | .light => "light"
  | .dark => "dark"

/-- The default bot reply assigned to `reply` before the slash-command tests. -/
def defaultReply : String :=
  "Nice! Sending a playful, helpful response with motion and clarity."

/-- The slash-command logic of `handleSend` (lines 337–345): `reply` starts
as the default and each of the four sequential `if` statements may overwrite
it after comparing `text.slice(1).trim().toLowerCase()` against a keyword. -/
def computeReply (theme : Theme) (text : String) : String :=
  if startsWithSlash text then
    let cmd := jsToLower (jsTrim (jsSlice1 text))
    let r1 := if cmd = "help" then "Commands: /help, /shortcuts, /theme, /a11y"
      else defaultReply
    let r2 := if cmd = "shortcuts" then
        "⌘/Ctrl+K command palette • ⌘/Ctrl+J toggle theme • Enter to send"
      else r1
    let r3 := if cmd = "theme" then
        "Theme is currently " ++ themeName theme ++ ". Use ⌘/Ctrl+J to toggle."
      else r2
    if cmd = "a11y" then
      "This UI uses roles, labels, focus states, and high contrast support."
    else r3
  else defaultReply

/-- One `setMessages((prev) => prev.map((m) => (m.id === id ? \x7b ...m,
status \x7d : m)))` step of the send flow: set the status of the message with
the given id. -/
def markStatus (id : String) (st : MsgStatus) (msgs : List Message) : List Message :=
  msgs.map fun m => if m.id == id then { m with status := some st } else m

/-- The user message constructed at the top of `handleSend`
(`\x7b id, sender: "user", text, time: timeNow, status: "sending" \x7d`). -/
def newUserMsg (id text time : String) : Message :=
  { id := id, sender := .user, text := text, time := time,
    status := some .sending, attachments := none }

/-- The bot reply message appended at the end of `handleSend`. -/
def newBotMsg (id text time : String) : Message :=
  { id := id, sender := .bot, text := text, time := time,
    status := none, attachments := none }

/-- The fresh values `handleSend` draws from the environment: the two
`crypto.randomUUID()` results and the two formatted clock readings. -/
structure SendOracle where
  msgId : String
  botId : String
  sendTime : String
  botTime : String
  deriving DecidableEq, Repr

/-- Embedding of the component state hooks (`theme`, `messages`, `typing`,
`activeThread`, `showSettings`). -/
structure State where
  theme : Theme
  messages : List Message
  typing : Bool
  activeThread : String
  showSettings : Bool
  deriving DecidableEq, Repr

/-- The initial state: `useState("dark")`, `useState(introMessages)`,
`useState(false)`, `useState("t1")`, `useState(false)`. -/
def initialState : State :=
  { theme := .dark, messages := introMessages, typing := false,
    activeThread := "t1", showSettings := false }

/-- Successive message-list snapshots produced by the `await`-delay chain of
`handleSend`: the list before the send, after appending the new user message
with status `sending`, after the `sent` update, after the `delivered` update,
and after the final update that marks the message `read` and appends the bot
reply. -/
def sendTrace (o : SendOracle) (theme : Theme) (text : String)
    (msgs : List Message) : List (List Message) :=
  let m0 := msgs ++ [newUserMsg o.msgId text o.sendTime]
  let m1 := markStatus o.msgId .sent m0
  let m2 := markStatus o.msgId .delivered m1
  let m3 := markStatus o.msgId .read m2 ++
    [newBotMsg o.botId (computeReply theme text) o.botTime]
  [msgs, m0, m1, m2, m3]

/-- State-level effect of a completed `handleSend(text)` call: the final
message list of the delay chain, with the typing flag back to `false`. -/
def handleSend (o : SendOracle) (text : String) (s : State) : State :=
  let m0 := s.messages ++ [newUserMsg o.msgId text o.sendTime]
  let m1 := markStatus o.msgId .sent m0
  let m2 := markStatus o.msgId .delivered m1
  let m3 := markStatus o.msgId .read m2 ++
    [newBotMsg o.botId (computeReply s.theme text) o.botTime]
  { s with messages := m3, typing := false }

/-- The local state of `MessageInput`: the `value` and `rows` hooks. -/
structure Composer where
  value : String
  rows : Nat
  deriving DecidableEq, Repr

/-- Embedding of `MessageInput.handleChange`: store the new value and clamp the row count
to `Math.min(6, Math.max(1, lines))`. -/
def handleChange (v : String) : Composer :=
  { value := v, rows := Nat.min 6 (Nat.max 1 (lineCount v)) }

/-- Embedding of `MessageInput.send` (lines 164–170): trim the value; on blank text do
nothing, otherwise emit the trimmed text to `onSend` and reset the composer.
The emitted text is returned alongside the next composer state. -/
def Composer.send (c : Composer) : Composer × Option String :=
  let text := jsTrim c.value
  if text = "" then (c, none)
  else ({ value := "", rows := 1 }, some text)

/-- The full send path: `MessageInput.send` guarding `handleSend`.  Returns
the next composer state and the component state after the delay chain. -/
def sendAction (o : SendOracle) (c : Composer) (s : State) : Composer × State :=
  match c.send with
  | (c2, none) => (c2, s)
  | (c2, some text) => (c2, handleSend o text s)

/-- The Clear button: `onClick=\x7b() => setMessages([])\x7d`. -/
def clearChat (s : State) : State :=
  { s with messages := [] }

/-- The theme toggle used by both the sidebar button and the Ctrl/Cmd+J
shortcut: `t === "light" ? "dark" : "light"`. -/
def toggleTheme : Theme → Theme
  | .light => .dark
  | .dark => .light

/-- State-level theme toggle action. -/
def toggleThemeAction (s : State) : State :=
  { s with theme := toggleTheme s.theme }

/-- Thread selection: `onClick=\x7b() => setActiveThread(t.id)\x7d`. -/
def selectThread (tid : String) (s : State) : State :=
  { s with activeThread := tid }

/-- The settings button: `onClick=\x7b() => setShowSettings((s) => !s)\x7d`. -/
def toggleSettingsAction (s : State) : State :=
  { s with showSettings := !s.showSettings }

/-- The Attach button (line 472): append a demo user message with two fixed
attachments, status `read`, a fresh id and the current time. -/
def attachDemo (id time : String) (s : State) : State :=
  { s with messages := s.messages ++
      [ { id := id, sender := .user, text := "Here are the brand assets.",
          time := time, status := some .read,
          attachments := some [ { type := .image, name := "logo@2x.png" },
            { type := .file, name := "brand‑guidelines.pdf" } ] } ] }

/-- The sidebar thread list rendered at line 410: always the static
`demoThreads` constant, whatever the component state is. -/
def sidebarThreads (_ : State) : List Thread :=
  demoThreads

/-- The empty-state condition of the scroll area (line 450):
`!messages.length` renders `EmptyState`. -/
def showEmptyState (msgs : List Message) : Bool :=
  msgs.length == 0

/-- The user-triggered operations of the component. -/
inductive Op where
  | send (value : String)
  | clear
  | themeToggle
  | threadSelect (tid : String)
  | settingsToggle
  | attach
  deriving DecidableEq, Repr

/-- Run one operation given the oracle of environment-generated values. -/
def runOp (op : Op) (o : SendOracle) (s : State) : State :=
  match op with
  | .send v => (sendAction o { value := v, rows := 1 } s).2
  | .clear => clearChat s
  | .themeToggle => toggleThemeAction s
  | .threadSelect tid => selectThread tid s
  | .settingsToggle => toggleSettingsAction s
  | .attach => attachDemo o.msgId o.sendTime s

/-- Freshness of the oracle ids for a state: `crypto.randomUUID()` never
collides with an id already in the message list. -/
def FreshFor (o : SendOracle) (s : State) : Prop :=
  ∀ m ∈ s.messages, m.id ≠ o.msgId

instance (o : SendOracle) (s : State) : Decidable (FreshFor o s) := by
  unfold FreshFor
  infer_instance

/-- One observable run of an operation: some choice of environment-generated
ids and times, fresh for the current state, produced the result. -/
def OpRun (op : Op) (s s2 : State) : Prop :=
  ∃ o : SendOracle, FreshFor o s ∧ s2 = runOp op o s

/-- The id-and-time-independent content of a message: sender, text, status
and attachments. -/
structure MsgContent where
  sender : Sender
  text : String
  status : Option MsgStatus
  attachments : Option (List Attachment)
  deriving DecidableEq, Repr

/-- Project a message to its content. -/
def Message.content (m : Message) : MsgContent :=
  { sender := m.sender, text := m.text, status := m.status,
    attachments := m.attachments }

/-- Two states agree up to the environment-generated message ids and
timestamps. -/
def StateContentEq (s1 s2 : State) : Prop :=
  s1.theme = s2.theme ∧ s1.typing = s2.typing ∧
  s1.activeThread = s2.activeThread ∧ s1.showSettings = s2.showSettings ∧
  s1.messages.map Message.content = s2.messages.map Message.content

/-- Numeric rank of a delivery status in the fixed sequence
sending → sent → delivered → read. -/
def statusRank : MsgStatus → Nat
  | .sending => 0
  | .sent => 1
  | .delivered => 2
  | .read => 3

/-- The delivery status displayed for the message with the given id: the
status of the first matching message, if any. -/
def findStatus (mid : String) (msgs : List Message) : Option MsgStatus :=
  match msgs.find? (fun m => m.id == mid) with
  | some m => m.status
  | none => none

/-- Between two message-list snapshots, no message whose status is shown in
both moves backwards in the sending → sent → delivered → read order. -/
def StatusNoRegress (a b : List Message) : Prop :=
  ∀ mid st st2, findStatus mid a = some st → findStatus mid b = some st2 →
    statusRank st ≤ statusRank st2

/-- Invariant: bot messages never carry a delivery status. -/
def BotNoStatus (msgs : List Message) : Prop :=
  ∀ m ∈ msgs, m.sender = Sender.bot → m.status = none

instance (msgs : List Message) : Decidable (BotNoStatus msgs) := by
  unfold BotNoStatus
  infer_instance

/-- The content of the new user message once the delay chain has finished:
the text sent, status `read`. -/
def finalUserMsg (o : SendOracle) (text : String) : Message :=
  { id := o.msgId, sender := .user, text := text, time := o.sendTime,
    status := some .read, attachments := none }

theorem markStatus_append (id : String) (st : MsgStatus) (l1 l2 : List Message) :
    markStatus id st (l1 ++ l2) = markStatus id st l1 ++ markStatus id st l2 :=
  List.map_append _ l1 l2

theorem markStatus_of_fresh (id : String) (st : MsgStatus) (msgs : List Message)
    (h : ∀ m ∈ msgs, m.id ≠ id) : markStatus id st msgs = msgs := by
  induction msgs with
  | nil => rfl
  | cons m ms ih =>
    have hm : (m.id == id) = false :=
      beq_eq_false_iff_ne.mpr (h m (List.mem_cons_self m ms))
    have ih2 := ih fun x hx => h x (List.mem_cons_of_mem m hx)
    simp only [markStatus, List.map_cons, hm, Bool.false_eq_true, if_false] at ih2 ⊢
    exact congrArg (m :: ·) ih2

theorem markStatus_snoc_self (id : String) (st : MsgStatus) (msgs : List Message)
    (u : Message) (h : ∀ m ∈ msgs, m.id ≠ id) (hu : u.id = id) :
    markStatus id st (msgs ++ [u]) = msgs ++ [{ u with status := some st }] := by
  rw [markStatus_append, markStatus_of_fresh _ _ _ h]
  simp [markStatus, hu]

theorem handleSend_messages (o : SendOracle) (text : String) (s : State)
    (h : FreshFor o s) :
    handleSend o text s =
      { s with
        messages := s.messages ++
          [finalUserMsg o text,
           newBotMsg o.botId (computeReply s.theme text) o.botTime],
        typing := false } := by
  dsimp only [handleSend]
  rw [markStatus_snoc_self _ _ _ _ h rfl, markStatus_snoc_self _ _ _ _ h rfl,
    markStatus_snoc_self _ _ _ _ h rfl]
  simp [newUserMsg, finalUserMsg]

theorem sendTrace_eq (o : SendOracle) (theme : Theme) (text : String)
    (msgs : List Message) (h : ∀ m ∈ msgs, m.id ≠ o.msgId) :
    sendTrace o theme text msgs =
      [ msgs,
        msgs ++ [newUserMsg o.msgId text o.sendTime],
        msgs ++ [{ newUserMsg o.msgId text o.sendTime with status := some .sent }],
        msgs ++ [{ newUserMsg o.msgId text o.sendTime with status := some .delivered }],
        msgs ++ [{ newUserMsg o.msgId text o.sendTime with status := some .read },
          newBotMsg o.botId (computeReply theme text) o.botTime] ] := by
  dsimp only [sendTrace]
  rw [markStatus_snoc_self _ _ _ _ h rfl, markStatus_snoc_self _ _ _ _ h rfl,
    markStatus_snoc_self _ _ _ _ h rfl]
  simp [newUserMsg]

theorem noRegress_append_right (msgs l2 : List Message) :
    StatusNoRegress msgs (msgs ++ l2) := by
  intro mid st st2 h1 h2
  unfold findStatus at h1 h2
  rw [List.find?_append] at h2
  cases hf : msgs.find? (fun m => m.id == mid) with
  | none => rw [hf] at h1; exact absurd h1 (by simp)
  | some m =>
    rw [hf] at h1
    rw [hf, Option.or_some] at h2
    rw [h1] at h2
    exact Option.some_injective _ h2 ▸ Nat.le_refl _

theorem noRegress_snoc (msgs : List Message) (a b : Message) (rest : List Message)
    (hid : b.id = a.id) (sa sb : MsgStatus) (ha : a.status = some sa)
    (hb : b.status = some sb) (hle : statusRank sa ≤ statusRank sb) :
    StatusNoRegress (msgs ++ [a]) (msgs ++ b :: rest) := by
  intro mid st st2 h1 h2
  unfold findStatus at h1 h2
  rw [List.find?_append] at h1 h2
  cases hf : msgs.find? (fun m => m.id == mid) with
  | some m =>
    rw [hf, Option.or_some] at h1 h2
    rw [h1] at h2
    exact Option.some_injective _ h2 ▸ Nat.le_refl _
  | none =>
    rw [hf, Option.none_or] at h1 h2
    by_cases hmid : a.id == mid
    · have hb2 : (b.id == mid) = true := by
        rw [hid]; exact hmid
      simp only [List.find?_cons, List.find?_singleton, hmid, hb2, cond_true] at h1 h2
      rw [ha] at h1
      rw [hb] at h2
      cases h1
      cases h2
      exact hle
    · simp only [List.find?_singleton, hmid, cond_false] at h1
      exact absurd h1 (by simp)

/-- Both states are content-equal to themselves. -/
theorem stateContentEq_refl (s : State) : StateContentEq s s :=
  ⟨rfl, rfl, rfl, rfl, rfl⟩

/-- C1: sending text that is non-empty after trimming appends exactly one
user message, and after the simulated delay chain exactly one bot reply; the
final message list is the old list with exactly those two messages appended
and nothing else added or removed. -/
theorem send_appends_exactly_one_user_and_one_bot (o : SendOracle) (c : Composer)
    (s : State) (hne : jsTrim c.value ≠ "") (hfresh : FreshFor o s) :
    ∃ u b : Message, u.sender = Sender.user ∧ b.sender = Sender.bot ∧
      (sendAction o c s).2.messages = s.messages ++ [u, b] := by
  refine ⟨finalUserMsg o (jsTrim c.value),
    newBotMsg o.botId (computeReply s.theme (jsTrim c.value)) o.botTime, rfl, rfl, ?_⟩
  have hsend : c.send = ({ value := "", rows := 1 }, some (jsTrim c.value)) := by
    simp [Composer.send, hne]
  rw [sendAction, hsend]
  dsimp only
  rw [handleSend_messages _ _ _ hfresh]

/-- Witness for C1 at a concrete input. -/
theorem send_appends_exactly_one_user_and_one_bot_witness :
    jsTrim "hello" ≠ "" ∧
    FreshFor { msgId := "u9", botId := "b9", sendTime := "10:00", botTime := "10:01" }
      initialState ∧
    ∃ u b : Message, u.sender = Sender.user ∧ b.sender = Sender.bot ∧
      (sendAction { msgId := "u9", botId := "b9", sendTime := "10:00", botTime := "10:01" }
          { value := "hello", rows := 1 } initialState).2.messages =
        initialState.messages ++ [u, b] :=
  ⟨by decide, by decide,
    send_appends_exactly_one_user_and_one_bot _ _ _ (by decide) (by decide)⟩

/-- C2: sending a value that is blank after trimming leaves the component
state, in particular the message list, unchanged. -/
theorem blank_send_leaves_state_unchanged (o : SendOracle) (c : Composer)
    (s : State) (h : jsTrim c.value = "") :
    (sendAction o c s).2 = s := by
  simp [sendAction, Composer.send, h]

/-- Witness for C2 on a whitespace-only input. -/
theorem blank_send_leaves_state_unchanged_witness :
    jsTrim "   " = "" ∧
    (sendAction { msgId := "u9", botId := "b9", sendTime := "10:00", botTime := "10:01" }
        { value := "   ", rows := 1 } initialState).2 = initialState :=
  ⟨by decide,
    blank_send_leaves_state_unchanged _ _ _ (by decide)⟩

/-- C3: along the snapshots of the timed send flow, no message whose status
is displayed ever moves backwards in the fixed order
sending → sent → delivered → read. -/
theorem send_status_transitions_monotone (o : SendOracle) (theme : Theme)
    (text : String) (msgs : List Message)
    (h : ∀ m ∈ msgs, m.id ≠ o.msgId) :
    List.Chain' StatusNoRegress (sendTrace o theme text msgs) := by
  rw [sendTrace_eq _ _ _ _ h]
  refine List.chain'_cons.mpr ⟨noRegress_append_right _ _, ?_⟩
  refine List.chain'_cons.mpr
    ⟨noRegress_snoc _ _ _ _ rfl .sending .sent rfl rfl (by decide), ?_⟩
  refine List.chain'_cons.mpr
    ⟨noRegress_snoc _ _ _ _ rfl .sent .delivered rfl rfl (by decide), ?_⟩
  exact List.chain'_pair.mpr
    (noRegress_snoc _ _ _ _ rfl .delivered .read rfl rfl (by decide))

/-- Witness for C3 at a concrete input. -/
theorem send_status_transitions_monotone_witness :
    (∀ m ∈ introMessages,
      m.id ≠ (SendOracle.mk "u8" "b8" "10:00" "10:01").msgId) ∧
    List.Chain' StatusNoRegress
      (sendTrace { msgId := "u8", botId := "b8", sendTime := "10:00", botTime := "10:01" }
        Theme.dark "hi" introMessages) :=
  ⟨by decide, send_status_transitions_monotone _ _ _ _ (by decide)⟩

/-- C4: the theme toggle maps light to dark and dark to light, and applying
it twice returns every theme to itself. -/
theorem theme_toggle_flips_and_double_toggle_is_identity :
    toggleTheme Theme.light = Theme.dark ∧ toggleTheme Theme.dark = Theme.light ∧
    ∀ t : Theme, toggleTheme (toggleTheme t) = t :=
  ⟨rfl, rfl, fun t => by cases t <;> rfl⟩

/-- C5: the Clear button empties the message list, and the empty-state view
is rendered exactly when the message list is empty. -/
theorem clear_empties_messages_and_empty_state_iff (s : State) :
    (clearChat s).messages = [] ∧
    showEmptyState (clearChat s).messages = true ∧
    ∀ msgs : List Message, showEmptyState msgs = true ↔ msgs = [] := by
  refine ⟨rfl, rfl, ?_⟩
  intro msgs
  cases msgs <;> simp [showEmptyState]

/-- C6: selecting a thread changes only the active-thread id; the message
list and all other state components are untouched, and the rendered sidebar
list is always the static demo list. -/
theorem thread_selection_only_changes_active_id (tid : String) (s : State) :
    (selectThread tid s).activeThread = tid ∧
    (selectThread tid s).messages = s.messages ∧
    (selectThread tid s).theme = s.theme ∧
    (selectThread tid s).typing = s.typing ∧
    (selectThread tid s).showSettings = s.showSettings ∧
    sidebarThreads (selectThread tid s) = demoThreads :=
  ⟨rfl, rfl, rfl, rfl, rfl, rfl⟩

/-- C7 counterexample: the claim that two runs of the same operation from the
same state always produce the same resulting state is false, because the
generated message ids differ between runs: two legitimate runs of the Attach
operation from the initial state yield different states. -/
theorem attach_two_runs_can_differ :
    OpRun Op.attach initialState
      (runOp Op.attach
        { msgId := "a1", botId := "b1", sendTime := "10:00", botTime := "10:01" }
        initialState) ∧
    OpRun Op.attach initialState
      (runOp Op.attach
        { msgId := "a2", botId := "b1", sendTime := "10:00", botTime := "10:01" }
        initialState) ∧
    runOp Op.attach
        { msgId := "a1", botId := "b1", sendTime := "10:00", botTime := "10:01" }
        initialState ≠
      runOp Op.attach
        { msgId := "a2", botId := "b1", sendTime := "10:00", botTime := "10:01" }
        initialState :=
  ⟨⟨{ msgId := "a1", botId := "b1", sendTime := "10:00", botTime := "10:01" },
      by decide, rfl⟩,
    ⟨{ msgId := "a2", botId := "b1", sendTime := "10:00", botTime := "10:01" },
      by decide, rfl⟩,
    by decide⟩

/-- C7 (amended): every operation is a local deterministic state transition
up to the environment-generated message ids and timestamps: any two runs of
the same operation from the same state agree on theme, typing flag, active
thread id, settings visibility, and on the sender, text, status and
attachments of every message. -/
theorem op_deterministic_up_to_generated_ids (op : Op) (s s1 s2 : State)
    (h1 : OpRun op s s1) (h2 : OpRun op s s2) : StateContentEq s1 s2 := by
  obtain ⟨o1, hf1, rfl⟩ := h1
  obtain ⟨o2, hf2, rfl⟩ := h2
  cases op with
  | clear => exact stateContentEq_refl _
  | themeToggle => exact stateContentEq_refl _
  | threadSelect tid => exact stateContentEq_refl _
  | settingsToggle => exact stateContentEq_refl _
  | attach =>
    refine ⟨rfl, rfl, rfl, rfl, ?_⟩
    simp [runOp, attachDemo, Message.content]
  | send v =>
    dsimp only [runOp]
    by_cases hv : jsTrim v = ""
    · have e1 : (sendAction o1 { value := v, rows := 1 } s).2 = s := by
        simp [sendAction, Composer.send, hv]
      have e2 : (sendAction o2 { value := v, rows := 1 } s).2 = s := by
        simp [sendAction, Composer.send, hv]
      rw [e1, e2]
      exact stateContentEq_refl _
    · have e1 : (sendAction o1 { value := v, rows := 1 } s).2 =
          handleSend o1 (jsTrim v) s := by
        simp [sendAction, Composer.send, hv]
      have e2 : (sendAction o2 { value := v, rows := 1 } s).2 =
          handleSend o2 (jsTrim v) s := by
        simp [sendAction, Composer.send, hv]
      rw [e1, e2, handleSend_messages _ _ _ hf1, handleSend_messages _ _ _ hf2]
      refine ⟨rfl, rfl, rfl, rfl, ?_⟩
      simp [Message.content, finalUserMsg, newBotMsg]

/-- Witness for the amended C7 at a concrete input. -/
theorem op_deterministic_up_to_generated_ids_witness :
    StateContentEq
      (runOp (Op.send "hi")
        { msgId := "u1", botId := "b1", sendTime := "10:00", botTime := "10:01" }
        initialState)
      (runOp (Op.send "hi")
        { msgId := "u2", botId := "b2", sendTime := "11:00", botTime := "11:01" }
        initialState) :=
  op_deterministic_up_to_generated_ids (Op.send "hi") initialState _ _
    ⟨{ msgId := "u1", botId := "b1", sendTime := "10:00", botTime := "10:01" },
      by decide, rfl⟩
    ⟨{ msgId := "u2", botId := "b2", sendTime := "11:00", botTime := "11:01" },
      by decide, rfl⟩

/-- C8 counterexample: the reply to the `/theme` command is not a fixed
string for that command: it differs between the two themes because the
current theme is interpolated into it. -/
theorem theme_command_reply_not_fixed :
    computeReply Theme.dark "/theme" ≠ computeReply Theme.light "/theme" := by
  decide

/-- C8 (amended): for text starting with a slash whose suffix, trimmed and
lowercased, is one of the four keywords, the bot reply is the corresponding
hardcoded string — for `/theme` the hardcoded template with the current theme
name interpolated — and for every other text the reply is the fixed default
string. -/
theorem computeReply_characterization (theme : Theme) (text : String) :
    (startsWithSlash text = false → computeReply theme text = defaultReply) ∧
    (startsWithSlash text = true →
      (jsToLower (jsTrim (jsSlice1 text)) = "help" →
        computeReply theme text = "Commands: /help, /shortcuts, /theme, /a11y") ∧
      (jsToLower (jsTrim (jsSlice1 text)) = "shortcuts" →
        computeReply theme text =
          "⌘/Ctrl+K command palette • ⌘/Ctrl+J toggle theme • Enter to send") ∧
      (jsToLower (jsTrim (jsSlice1 text)) = "theme" →
        computeReply theme text =
          "Theme is currently " ++ themeName theme ++ ". Use ⌘/Ctrl+J to toggle.") ∧
      (jsToLower (jsTrim (jsSlice1 text)) = "a11y" →
        computeReply theme text =
          "This UI uses roles, labels, focus states, and high contrast support.") ∧
      (jsToLower (jsTrim (jsSlice1 text)) ≠ "help" →
        jsToLower (jsTrim (jsSlice1 text)) ≠ "shortcuts" →
        jsToLower (jsTrim (jsSlice1 text)) ≠ "theme" →
        jsToLower (jsTrim (jsSlice1 text)) ≠ "a11y" →
        computeReply theme text = defaultReply)) := by
  constructor
  · intro hs
    simp [computeReply, hs]
  · intro hs
    refine ⟨?_, ?_, ?_, ?_, ?_⟩
    · intro h
      simp [computeReply, hs, h]
    · intro h
      simp [computeReply, hs, h]
    · intro h
      simp [computeReply, hs, h]
    · intro h
      simp [computeReply, hs, h]
    · intro h1 h2 h3 h4
      simp [computeReply, hs, h1, h2, h3, h4]

/-- Witness for the amended C8 at a concrete input. -/
theorem computeReply_characterization_witness :
    computeReply Theme.dark "/help" = "Commands: /help, /shortcuts, /theme, /a11y" :=
  ((computeReply_characterization Theme.dark "/help").2 (by decide)).1 (by decide)

/-- C9: bot messages never carry a delivery status: the invariant holds of
the initial demo messages and is preserved by clearing, by the demo-attach
button and by the full send flow. -/
theorem bot_messages_never_have_status :
    BotNoStatus introMessages ∧
    (∀ s : State, BotNoStatus s.messages → BotNoStatus (clearChat s).messages) ∧
    (∀ (s : State) (id time : String), BotNoStatus s.messages →
      BotNoStatus (attachDemo id time s).messages) ∧
    (∀ (o : SendOracle) (c : Composer) (s : State), FreshFor o s →
      BotNoStatus s.messages → BotNoStatus (sendAction o c s).2.messages) := by
  refine ⟨by decide, ?_, ?_, ?_⟩
  · intro s _ m hm
    simp [clearChat] at hm
  · intro s id time h m hm hb
    dsimp only [attachDemo] at hm
    rcases List.mem_append.mp hm with h1 | h1
    · exact h m h1 hb
    · simp only [List.mem_singleton] at h1
      subst h1
      simp at hb
  · intro o c s hf h
    by_cases hv : jsTrim c.value = ""
    · have e : (sendAction o c s).2 = s := by
        simp [sendAction, Composer.send, hv]
      rw [e]
      exact h
    · have e : (sendAction o c s).2 = handleSend o (jsTrim c.value) s := by
        simp [sendAction, Composer.send, hv]
      rw [e, handleSend_messages _ _ _ hf]
      intro m hm hb
      dsimp only at hm
      rcases List.mem_append.mp hm with h1 | h1
      · exact h m h1 hb
      · rcases List.mem_cons.mp h1 with h2 | h2
        · subst h2
          simp [finalUserMsg] at hb
        · simp only [List.mem_singleton] at h2
          subst h2
          rfl

/-- Witness for C9 at a concrete input. -/
theorem bot_messages_never_have_status_witness :
    BotNoStatus
      (sendAction { msgId := "u7", botId := "b7", sendTime := "10:00", botTime := "10:01" }
        { value := "hi", rows := 1 } initialState).2.messages :=
  bot_messages_never_have_status.2.2.2 _ _ _ (by decide) (by decide)

/-- C10: a successful send resets the composer to an empty value and one
row, and the row count computed while typing is always clamped between 1
and 6. -/
theorem composer_reset_and_rows_clamped :
    (∀ c : Composer, jsTrim c.value ≠ "" →
      (Composer.send c).1 = { value := "", rows := 1 }) ∧
    (∀ v : String, 1 ≤ (handleChange v).rows ∧ (handleChange v).rows ≤ 6) := by
  constructor
  · intro c hc
    simp [Composer.send, hc]
  · intro v
    dsimp only [handleChange]
    exact ⟨le_min (by norm_num) (le_max_left 1 _), min_le_left _ _⟩

/-- Witness for C10 at a concrete input. -/
theorem composer_reset_and_rows_clamped_witness :
    (Composer.send { value := " hi ", rows := 3 }).1 = { value := "", rows := 1 } :=
  composer_reset_and_rows_clamped.1 _ (by decide)

end ChatShowcase
